import Mathlib

/-!
Verification of the WAHA CLI scripts.

A shallow embedding, in Lean 4, of the Python command-line utilities in this
repository (`waha_client.py`, `groups.py`, `send_message.py`, `send_media.py`,
`contacts.py`, `list_chats.py`, `session.py`), together with theorems settling
the specification's testable properties against the embedded code.

Modelling conventions:
* JSON-decoded Python values are modelled by the inductive type `Json`
  (numbers as `Int`; the scripts never rely on float behaviour).
* A Python `dict` of JSON values is an association list `Dict`; lookup takes
  the first binding, matching `dict` semantics when keys are unique.
* `print(x)` calls are modelled by the string passed to `print`; terminal
  output of a command is the list of lines produced, obtained by splitting
  each printed string on newline characters.
* Process effects (stdout, stderr, `sys.exit`, network I/O) are modelled by
  the trace type `Eff`.
-/

namespace Waha

/-- JSON values as decoded by Python's `json` module (`resp.json()`):
`None`, `bool`, `int`, `str`, `list`, `dict`. -/
inductive Json where
  | null : Json
  | bool (b : Bool) : Json
  | num (n : Int) : Json
  | str (s : String) : Json
  | arr (xs : List Json) : Json
  | obj (fields : List (String × Json)) : Json
deriving Repr

/-- A decoded Python `dict` with string keys: an association list. -/
abbrev Dict := List (String × Json)

/-- Python truthiness of a JSON-decoded value: `None`, `False`, `0`, `""`,
`[]` and `{}` are falsy, everything else truthy. -/
def truthy : Json → Bool
  | .null => false
  | .bool b => b
  | .num n => n != 0
  | .str s => s != ""
  | .arr xs => !xs.isEmpty
  | .obj fs => !fs.isEmpty

/-- Python's `a or b` on JSON-decoded values: the first operand if truthy,
otherwise the second. -/
def pyOr (a b : Json) : Json :=
  if truthy a then a else b

/-- Python's `d.get(k, default)` on a decoded `dict`. -/
def dGet (d : Dict) (k : String) (dflt : Json) : Json :=
  match d.find? (fun p => p.1 == k) with
  | some p => p.2
  | none => dflt

/-- Whether a decoded `dict` has a binding for key `k` (`k in d`). -/
def hasKey (d : Dict) (k : String) : Bool :=
  d.any (fun p => p.1 == k)

mutual

/-- Python `repr` of a JSON-decoded value, as used when such a value is
interpolated inside a container rendering (e.g. `str({'error': 'x'})`).
Strings are modelled as quoted with a single quote and no escaping, the
common case for API error payloads. -/
def pyRepr : Json → String
  | .null => "None"
  | .bool true => "True"
  | .bool false => "False"
  | .num n => toString n
  | .str s => "\x27" ++ s ++ "\x27"
  | .arr xs => "[" ++ pyReprList xs ++ "]"
  | .obj fs => "\x7b" ++ pyReprFields fs ++ "\x7d"

/-- Comma-separated `repr` of the elements of a Python list. -/
def pyReprList : List Json → String
  | [] => ""
  | [x] => pyRepr x
  | x :: xs => pyRepr x ++ ", " ++ pyReprList xs

/-- Comma-separated `repr` of the entries of a Python dict. -/
def pyReprFields : List (String × Json) → String
  | [] => ""
  | [(k, v)] => "\x27" ++ k ++ "\x27: " ++ pyRepr v
  | (k, v) :: fs => "\x27" ++ k ++ "\x27: " ++ pyRepr v ++ ", " ++ pyReprFields fs

end

/-- Python `str` of a JSON-decoded value, as used by f-string interpolation:
a `str` renders as itself, containers render via `repr` of their parts. -/
def pyToStr : Json → String
  | .str s => s
  | j => pyRepr j

/-- One process-level effect of a script: a `print` to stdout, a `print` to
`sys.stderr`, a `sys.exit`, or an HTTP request sent over the network. -/
inductive Eff where
  | out (s : String) : Eff
  | err (s : String) : Eff
  | exit (code : Nat) : Eff
  | net (req : String) : Eff
deriving Repr, BEq, DecidableEq

/-- Whether an effect is a write to standard output. -/
def Eff.isOut : Eff → Bool
  | .out _ => true
  | _ => false

/-- Whether an effect is network activity. -/
def Eff.isNet : Eff → Bool
  | .net _ => true
  | _ => false

/-! Environment loading in waha_client.py -/

/-- The process environment, `os.environ`: an association list of variables.
`os.environ[k] = v` for an absent key appends a binding; lookup takes the
first binding. -/
abbrev Env := List (String × String)

/-- Python's `os.environ.get(k)`. -/
def envGet (env : Env) (k : String) : Option String :=
  (env.find? (fun p => p.1 == k)).map Prod.snd

/-- Assignment `os.environ[k] = v`, used by the loader only when `k` is absent. -/
def envSet (env : Env) (k v : String) : Env :=
  env ++ [(k, v)]

/-- Drop leading whitespace characters from a character list. -/
def dropWhileWs : List Char → List Char
  | [] => []
  | c :: cs => if c.isWhitespace then dropWhileWs cs else c :: cs

/-- Python's `str.strip()` with no argument: remove leading and trailing
whitespace. Implemented structurally on the character list so that
concrete instances compute by reduction. -/
def pyStrip (s : String) : String :=
  String.mk ((dropWhileWs ((dropWhileWs s.toList).reverse)).reverse)

/-- Python's `line.startswith("#")`. -/
def startsWithHash (s : String) : Bool :=
  match s.toList with
  | c :: _ => c = '#'
  | [] => false

/-- Python's `s.partition("=")` restricted to the part before and after the
first `=`: `none` when the string has no `=` (`"=" not in line`). -/
def partEq : List Char → Option (List Char × List Char)
  | [] => none
  | c :: cs =>
    if c = '=' then some ([], cs)
    else match partEq cs with
      | some (a, b) => some (c :: a, b)
      | none => none

/-- The body of the `for` loop of `_load_env` for one line of the `.env`
file: strip the line, skip it if blank, a comment, or without `=`; otherwise
split at the first `=`, trim key and value, and set the key if it is
non-empty and not already in the environment. -/
def processLine (env : Env) (rawLine : String) : Env :=
  let line := pyStrip rawLine
  if line = "" then env
  else if startsWithHash line then env
  else match partEq line.toList with
    | none => env
    | some (k, v) =>
      let key := pyStrip (String.mk k)
      let value := pyStrip (String.mk v)
      if key ≠ "" ∧ envGet env key = none then envSet env key value
      else env

/-- The loop of `_load_env` applied to the lines of the `.env` file (the file is
modelled by its `splitlines()` result). -/
def loadEnv (env : Env) (lines : List String) : Env :=
  lines.foldl processLine env

/-! Functions pp, die and check of waha_client.py -/

/-- An HTTP response as seen by `check`: its status code, the result of
`resp.json()` (`none` models a decode failure), and `resp.text`. -/
structure Response where
  status_code : Nat
  jsonBody : Option Json
  text : String
deriving Repr

/-- Model of `die(msg)`: print `Error: <msg>` to stderr and exit with code 1. -/
def die (msg : String) : List Eff :=
  [.err ("Error: " ++ msg), .exit 1]

/-- The `detail` computed by `check` for an error response: the decoded
JSON body when decoding succeeds, else the raw text; rendered as Python's
f-string interpolation (`str`) renders it. -/
def errDetail (resp : Response) : String :=
  match resp.jsonBody with
  | some j => pyToStr j
  | none => resp.text

/-- Model of `check(resp)`: on status ≥ 400, die with `HTTP <code>: <detail>`;
otherwise return `resp.json()` (`none` models the decode raising, an
unhandled defect). The first component is the effect trace. -/
def check (resp : Response) : List Eff × Option Json :=
  if 400 ≤ resp.status_code then
    (die ("HTTP " ++ toString resp.status_code ++ ": " ++ errDetail resp), none)
  else
    ([], resp.jsonBody)

/-! The pretty printer pp of waha_client.py -/

/-- Hexadecimal digit for `json.dumps` control-character escapes. -/
def hexDigit (n : Nat) : Char :=
  if n < 10 then Char.ofNat (48 + n) else Char.ofNat (87 + n)

/-- JSON string escaping as performed by `json.dumps` with
`ensure_ascii=False`: quote, backslash and control characters are escaped,
all other characters (including non-ASCII) pass through literally. -/
def jsonEscapeChar (c : Char) : String :=
  if c = '"' then "\\\""
  else if c = '\\' then "\\\\"
  else if c = '\n' then "\\n"
  else if c = '\t' then "\\t"
  else if c = '\r' then "\\r"
  else if c.toNat < 32 then
    "\\u00" ++ String.mk [hexDigit (c.toNat / 16), hexDigit (c.toNat % 16)]
  else String.singleton c

/-- Escape a whole string for a JSON string literal. -/
def jsonEscape (s : String) : String :=
  String.join (s.toList.map jsonEscapeChar)

/-- A run of `n` spaces, for `indent=2` pretty printing. -/
def sp (n : Nat) : String :=
  String.mk (List.replicate n ' ')

mutual

/-- Model of `json.dumps(j, indent=2, ensure_ascii=False, default=str)` at nesting
level `lvl`. All embedded values are JSON-serializable, so the `default=str`
fallback never fires in the model. -/
def dumpJson (lvl : Nat) : Json → String
  | .null => "null"
  | .bool true => "true"
  | .bool false => "false"
  | .num n => toString n
  | .str s => "\"" ++ jsonEscape s ++ "\""
  | .arr xs =>
    if xs.isEmpty then "[]"
    else "[\n" ++ dumpArr (lvl + 1) xs ++ "\n" ++ sp (2 * lvl) ++ "]"
  | .obj fs =>
    if fs.isEmpty then "\x7b\x7d"
    else "\x7b\n" ++ dumpObj (lvl + 1) fs ++ "\n" ++ sp (2 * lvl) ++ "\x7d"

/-- The comma-and-newline separated, indented elements of a JSON array. -/
def dumpArr (lvl : Nat) : List Json → String
  | [] => ""
  | [x] => sp (2 * lvl) ++ dumpJson lvl x
  | x :: xs => sp (2 * lvl) ++ dumpJson lvl x ++ ",\n" ++ dumpArr lvl xs

/-- The comma-and-newline separated, indented entries of a JSON object. -/
def dumpObj (lvl : Nat) : List (String × Json) → String
  | [] => ""
  | [(k, v)] => sp (2 * lvl) ++ "\"" ++ jsonEscape k ++ "\": " ++ dumpJson lvl v
  | (k, v) :: fs =>
    sp (2 * lvl) ++ "\"" ++ jsonEscape k ++ "\": " ++ dumpJson lvl v ++ ",\n"
      ++ dumpObj lvl fs

end

/-- The string printed by `pp(data)`:
`json.dumps(data, indent=2, ensure_ascii=False, default=str)`. -/
def ppStr (data : Json) : String :=
  dumpJson 0 data

/-! Module initialization of waha_client.py: load_env plus API key check -/

/-- The diagnostic printed when the API key is missing. -/
def apiKeyErrMsg : String :=
  "Error: WAHA_API_KEY not set. Check ~/documents/waha/.env"

/-- The environment after `_load_env()` ran: unchanged when the `.env` file
does not exist (`none`), otherwise the fold of `processLine` over its
lines. -/
def envAfterLoad (env0 : Env) (envFile : Option (List String)) : Env :=
  match envFile with
  | none => env0
  | some lines => loadEnv env0 lines

/-- Module initialization of `waha_client.py`: run `_load_env()`, read
`WAHA_API_KEY` with default `""`, and if it is falsy print a diagnostic to
stderr and exit with code 1; otherwise initialization succeeds and returns
the key. The trace lists all effects performed. -/
def moduleInit (env0 : Env) (envFile : Option (List String)) :
    List Eff × Option String :=
  let env := envAfterLoad env0 envFile
  let apiKey := (envGet env "WAHA_API_KEY").getD ""
  if apiKey = "" then ([.err apiKeyErrMsg, .exit 1], none)
  else ([], some apiKey)

/-! Command-line grammars: the optional arguments of each module -/

/-- One argparse optional argument: its short flag (when present), its long
flag, and its default value (argparse stores `None`, strings, ints, and
`False` for `store_true`). -/
structure ArgOpt where
  short : Option String
  long : String
  dflt : Json

/-- The optional arguments of `groups.py`. -/
def groupsModuleOpts : List ArgOpt :=
  [⟨some "-s", "--session", .str "default"⟩]

/-- The optional arguments of `contacts.py`. -/
def contactsModuleOpts : List ArgOpt :=
  [⟨some "-s", "--session", .str "default"⟩]

/-- The optional arguments of `list_chats.py`. -/
def listChatsModuleOpts : List ArgOpt :=
  [⟨some "-s", "--session", .str "default"⟩,
   ⟨some "-l", "--limit", .num 20⟩,
   ⟨none, "--offset", .num 0⟩,
   ⟨none, "--download-media", .bool false⟩]

/-- The optional arguments of `send_message.py`. -/
def sendMessageModuleOpts : List ArgOpt :=
  [⟨some "-s", "--session", .str "default"⟩,
   ⟨some "-r", "--reply-to", .null⟩]

/-- The optional arguments of `send_media.py`. -/
def sendMediaModuleOpts : List ArgOpt :=
  [⟨some "-s", "--session", .str "default"⟩,
   ⟨some "-c", "--caption", .null⟩,
   ⟨some "-r", "--reply-to", .null⟩,
   ⟨some "-f", "--filename", .null⟩,
   ⟨some "-m", "--mimetype", .null⟩]

/-- The optional arguments of `session.py`: its parser declares only
subcommands with positional `name` arguments, no options at all. -/
def sessionModuleOpts : List ArgOpt :=
  []

/-- Look up an option by its long flag in a module's grammar. -/
def findOpt (opts : List ArgOpt) (long : String) : Option ArgOpt :=
  opts.find? (fun o => o.long == long)

/-! Payload construction in send_message.py and send_media.py -/

/-- Model of `if args.x: payload[k] = args.x` for an optional string argument `x`
(default `None`): the entry is included exactly when the value is present
and truthy, i.e. a non-empty string. -/
def optEntry (k : String) (v : Option String) : Dict :=
  match v with
  | some s => if s != "" then [(k, .str s)] else []
  | none => []

/-- The JSON payload built by `send_message.py`. -/
def sendTextPayload (chat_id text session : String) (reply_to : Option String) :
    Dict :=
  [("chatId", .str chat_id), ("text", .str text), ("session", .str session)]
    ++ optEntry "reply_to" reply_to

/-- The nested `file` descriptor built by `send_media.py`. -/
def sendMediaFileObj (url : String) (mimetype filename : Option String) : Dict :=
  [("url", .str url)] ++ optEntry "mimetype" mimetype ++ optEntry "filename" filename

/-- The JSON payload built by `send_media.py`: base fields, then optional
caption and reply-to, then `convert: true` exactly for the video and voice
media types. -/
def sendMediaPayload (media_type chat_id url session : String)
    (caption reply_to filename mimetype : Option String) : Dict :=
  [("chatId", .str chat_id),
   ("file", .obj (sendMediaFileObj url mimetype filename)),
   ("session", .str session)]
    ++ optEntry "caption" caption
    ++ optEntry "reply_to" reply_to
    ++ (if media_type = "video" ∨ media_type = "voice"
        then [("convert", .bool true)] else [])

/-! Per-command terminal output.

Each command's output is modelled at `print`-call granularity: the list of
the strings passed to `print`, in order. The trailing count emitted by the
list-style commands is the single print argument `"\n(<N> <noun>)"`, i.e. a
blank separator line followed by the count line. -/

/-- Python's `x.get(k, dflt)` on a decoded value: the scripts call `.get` on list
items assuming they are dicts (a non-dict item would raise in Python; the
embedding totalises that case with the default). -/
def jGet (j : Json) (k : String) (dflt : Json) : Json :=
  match j with
  | .obj fs => dGet fs k dflt
  | _ => dflt

/-- The trailing count print of a list-style command:
`print(f"\n({len(data)} <noun>)")`. -/
def countPrint (n : Nat) (noun : String) : String :=
  "\n(" ++ toString n ++ " " ++ noun ++ ")"

/-- One summary line of `groups.py list`. -/
def groupLine (g : Json) : String :=
  "  " ++ pyToStr (jGet g "id" (.str "?")) ++ "  "
    ++ pyToStr (jGet g "subject" (jGet g "name" (.str "")))
    ++ " (" ++ pyToStr (jGet g "size" (.str "?")) ++ " members)"

/-- Output of the `list` branch of `groups.py` on a checked response. -/
def groupsListOutput (data : Json) : List String :=
  match data with
  | .arr gs => gs.map groupLine ++ [countPrint gs.length "groups"]
  | _ => [ppStr data]

/-- One summary line of `groups.py participants`. -/
def participantLine (pt : Json) : String :=
  "  " ++ pyToStr (jGet pt "id" (.str "?")) ++ "  "
    ++ pyToStr (jGet pt "role" (jGet pt "isAdmin" (.str "")))

/-- Output of the `participants` branch of `groups.py`. -/
def participantsOutput (data : Json) : List String :=
  match data with
  | .arr ps => ps.map participantLine ++ [countPrint ps.length "participants"]
  | _ => [ppStr data]

/-- One summary line of `contacts.py list`. -/
def contactLine (ct : Json) : String :=
  "  " ++ pyToStr (jGet ct "id" (.str "?")) ++ "  "
    ++ pyToStr (jGet ct "name" (jGet ct "pushname" (.str "")))

/-- Output of the `list` branch of `contacts.py`. -/
def contactsListOutput (data : Json) : List String :=
  match data with
  | .arr cts => cts.map contactLine ++ [countPrint cts.length "contacts"]
  | _ => [ppStr data]

/-- One summary line of `session.py list`. -/
def sessionLine (s : Json) : String :=
  "  " ++ pyToStr (jGet s "name" (.str "?")) ++ "  ["
    ++ pyToStr (jGet s "status" (.str "?")) ++ "]"

/-- Output of the `list` branch of `session.py`. -/
def sessionsListOutput (data : Json) : List String :=
  match data with
  | .arr ss => ss.map sessionLine ++ [countPrint ss.length "sessions"]
  | _ => [ppStr data]

/-- One summary line of `list_chats.py chats`. -/
def chatLine (chat : Json) : String :=
  "  " ++ pyToStr (jGet chat "id" (.str "?")) ++ "  "
    ++ pyToStr (jGet chat "name" (.str ""))

/-- Output of `list_chats.py chats`. -/
def chatsOutput (data : Json) : List String :=
  match data with
  | .arr cs => cs.map chatLine ++ [countPrint cs.length "chats"]
  | _ => [ppStr data]

/-- Python's `x[:80]`, defined on the sliceable decoded values (strings and
lists; slicing anything else raises in Python, totalised as the identity). -/
def jSlice80 : Json → Json
  | .str s => .str (s.take 80)
  | .arr xs => .arr (xs.take 80)
  | j => j

/-- The truncated preview body of one chat in `list_chats.py overview`:
`(chat.get("lastMessage") or {}).get("body") or ""`, sliced to 80. -/
def overviewBody (chat : Json) : Json :=
  jSlice80 (pyOr (jGet (pyOr (jGet chat "lastMessage" .null) (.obj [])) "body" .null)
    (.str ""))

/-- The one or two lines printed for one chat by `list_chats.py overview`:
the id/name summary line, plus a preview line when the truncated body is
truthy. -/
def overviewLines (chat : Json) : List String :=
  ("  " ++ pyToStr (jGet chat "id" (.str "?")) ++ "  "
      ++ pyToStr (jGet chat "name" (.str "")))
    :: (if truthy (overviewBody chat)
        then ["    -> " ++ pyToStr (overviewBody chat)] else [])

/-- Output of `list_chats.py overview`. -/
def overviewOutput (data : Json) : List String :=
  match data with
  | .arr cs => cs.flatMap overviewLines ++ [countPrint cs.length "chats"]
  | _ => [ppStr data]

/-- The two lines printed for one message by `list_chats.py messages`: the
timestamp/sender/body line and the id line. -/
def msgLines (m : Json) : List String :=
  let sender :=
    if truthy (jGet m "fromMe" .null) then "me" else pyToStr (jGet m "from" (.str "?"))
  let media := if truthy (jGet m "hasMedia" .null) then " [media]" else ""
  ["  [" ++ pyToStr (jGet m "timestamp" (.str "")) ++ "] " ++ sender ++ ": "
      ++ pyToStr (jGet m "body" (.str "")) ++ media,
   "           id: " ++ pyToStr (jGet m "id" (.str ""))]

/-- Output of `list_chats.py messages`: the received page is iterated with
`reversed(data)` before printing. -/
def messagesOutput (data : Json) : List String :=
  match data with
  | .arr ms => ms.reverse.flatMap msgLines ++ [countPrint ms.length "messages"]
  | _ => [ppStr data]

/-- Output of `contacts.py check`: the structured dump of the response,
then, only when the response is a dict, the existence sentence derived from
the truthiness of `numberExists` or `chatId`. -/
def contactsCheckOutput (phone : String) (data : Json) : List String :=
  [ppStr data] ++
    match data with
    | .obj fs =>
      let existsVal := pyOr (dGet fs "numberExists" .null) (dGet fs "chatId" .null)
      let status := if truthy existsVal then "exists" else "NOT found"
      ["\n  Number " ++ phone ++ " " ++ status ++ " on WhatsApp"]
    | _ => []

/-! Derived characterisations used by the theorems -/

/-- Whether a decoded value is a dict (`isinstance(data, dict)`). -/
def Json.isObj : Json → Bool
  | .obj _ => true
  | _ => false

/-- The key/value pair one line contributes under `_load_env`'s parsing,
factored out of the loop body: `none` when the line is skipped (blank,
comment, or without `=`, or with an empty trimmed key). -/
def lineEntry (rawLine : String) : Option (String × String) :=
  let line := pyStrip rawLine
  if line = "" then none
  else if startsWithHash line then none
  else match partEq line.toList with
    | none => none
    | some (k, v) =>
      let key := pyStrip (String.mk k)
      if key = "" then none else some (key, pyStrip (String.mk v))

/-- The value the `.env` file assigns to key `k` under `_load_env`'s
parsing: the trimmed value of the first line whose entry has key `k`. -/
def fileLookup (k : String) : List String → Option String
  | [] => none
  | l :: ls =>
    match lineEntry l with
    | some (k', v) => if k' = k then some v else fileLookup k ls
    | none => fileLookup k ls

/-- Modelled from the claim C2 read literally, for comparison with
`loadEnv`: the key/value pair of a non-blank, non-comment line under
`str.partition` semantics, where a line without `=` yields the whole line
as key and `""` as value (the claim states no skip for such lines). -/
def claimLineEntry (rawLine : String) : Option (String × String) :=
  let line := pyStrip rawLine
  if line = "" then none
  else if startsWithHash line then none
  else
    let kv := match partEq line.toList with
      | some (a, b) => (String.mk a, String.mk b)
      | none => (line, "")
    if pyStrip kv.1 = "" then none
    else some (pyStrip kv.1, pyStrip kv.2)

/-- Modelled from the claim C2 read literally: the value it predicts for
key `k`, first matching line winning. -/
def claimFileLookup (k : String) : List String → Option String
  | [] => none
  | l :: ls =>
    match claimLineEntry l with
    | some (k', v) => if k' = k then some v else claimFileLookup k ls
    | none => claimFileLookup k ls

/-! Helper lemmas -/

theorem envGet_nil (k : String) : envGet [] k = none := rfl

theorem envGet_envSet_of_ne (env : Env) (k k' v : String) (h : k' ≠ k) :
    envGet (envSet env k' v) k = envGet env k := by
  simp [envGet, envSet, List.find?_append, h]

theorem envGet_envSet_self (env : Env) (k v : String) (h : envGet env k = none) :
    envGet (envSet env k v) k = some v := by
  have h' : env.find? (fun p => p.1 == k) = none := by
    cases hf : env.find? (fun p => p.1 == k) with
    | none => rfl
    | some p => rw [envGet, hf] at h; simp at h
  simp [envGet, envSet, List.find?_append, h']

theorem find?_optEntry_ne (k kk : String) (v : Option String) (h : k ≠ kk) :
    (optEntry k v).find? (fun p => p.1 == kk) = none := by
  cases v with
  | none => rfl
  | some s =>
    simp only [optEntry]
    split
    · simp [h]
    · rfl

theorem any_optEntry_ne (k kk : String) (v : Option String) (h : k ≠ kk) :
    (optEntry k v).any (fun p => p.1 == kk) = false := by
  cases v with
  | none => rfl
  | some s =>
    simp only [optEntry]
    split
    · simp [h]
    · rfl

theorem hasKey_sendMediaPayload_convert (mt cid url sess : String)
    (cap rto fn mtp : Option String) :
    hasKey (sendMediaPayload mt cid url sess cap rto fn mtp) "convert"
      = decide (mt = "video" ∨ mt = "voice") := by
  by_cases h : mt = "video" ∨ mt = "voice" <;>
    simp [sendMediaPayload, hasKey, List.any_append, any_optEntry_ne, h]

/-! Claims -/

/-- C1: for every HTTP response with status code ≥ 400, `check` emits
`HTTP <code>: <detail>` through `die` to the diagnostic stream (the detail
being the decoded JSON body rendered by `str`, or the raw text when JSON
decoding fails) and exits with code 1, writing nothing to standard output;
for every response with status code < 400 it returns the decoded JSON
body. -/
theorem c1_response_checker (resp : Response) :
    check resp =
      (if 400 ≤ resp.status_code then
        ([.err ("Error: " ++ ("HTTP " ++ toString resp.status_code ++ ": "
            ++ (match resp.jsonBody with
                | some j => pyToStr j
                | none => resp.text))),
          .exit 1], none)
      else ([], resp.jsonBody))
    ∧ (check resp).1.filter Eff.isOut = [] := by
  constructor
  · simp only [check, die, errDetail]
  · simp only [check, die]
    split <;> rfl

/-- C4: whenever `WAHA_API_KEY` is absent from, or bound to the empty
string in, the environment resulting from `_load_env()`, module
initialization prints a diagnostic to stderr and exits with code 1, its
trace containing no network activity. -/
theorem c4_missing_api_key_aborts (env0 : Env) (envFile : Option (List String))
    (h : envGet (envAfterLoad env0 envFile) "WAHA_API_KEY" = none ∨
         envGet (envAfterLoad env0 envFile) "WAHA_API_KEY" = some "") :
    moduleInit env0 envFile = ([.err apiKeyErrMsg, .exit 1], none) ∧
      (moduleInit env0 envFile).1.filter Eff.isNet = [] := by
  have hk : (envGet (envAfterLoad env0 envFile) "WAHA_API_KEY").getD "" = "" := by
    rcases h with h | h <;> simp [h]
  constructor <;> simp [moduleInit, hk, Eff.isNet]

/-- Witness for C4 at the empty environment with no `.env` file. -/
theorem c4_missing_api_key_aborts_witness :
    moduleInit [] none = ([.err apiKeyErrMsg, .exit 1], none) ∧
      (moduleInit [] none).1.filter Eff.isNet = [] :=
  c4_missing_api_key_aborts [] none (Or.inl rfl)

/-- C6: the payload built by `send_media.py` contains a `convert` entry if
and only if the media type is `video` or `voice`; in particular the entry
(with value `true`) is always present for `voice` and never for `image`. -/
theorem c6_convert_flag (mt cid url sess : String)
    (cap rto fn mtp : Option String) :
    (hasKey (sendMediaPayload mt cid url sess cap rto fn mtp) "convert" = true
      ↔ (mt = "video" ∨ mt = "voice"))
    ∧ (sendMediaPayload "voice" cid url sess cap rto fn mtp).find?
        (fun p => p.1 == "convert") = some ("convert", .bool true)
    ∧ hasKey (sendMediaPayload "image" cid url sess cap rto fn mtp) "convert"
        = false := by
  refine ⟨?_, ?_, ?_⟩
  · rw [hasKey_sendMediaPayload_convert]
    simp
  · simp [sendMediaPayload, List.find?_append, find?_optEntry_ne]
  · rw [hasKey_sendMediaPayload_convert]
    simp

theorem processLine_eq (env : Env) (l : String) :
    processLine env l =
      match lineEntry l with
      | none => env
      | some kv => if envGet env kv.1 = none then envSet env kv.1 kv.2 else env := by
  simp only [processLine, lineEntry]
  by_cases h1 : pyStrip l = ""
  · simp [h1]
  · by_cases h2 : startsWithHash (pyStrip l) = true
    · simp [h1, h2]
    · simp only [h1, h2, if_false, Bool.false_eq_true]
      cases hp : partEq (pyStrip l).toList with
      | none => simp [hp]
      | some kv =>
        obtain ⟨a, b⟩ := kv
        simp only [hp]
        by_cases h3 : pyStrip (String.mk a) = ""
        · simp [h3]
        · by_cases h4 : envGet env (pyStrip (String.mk a)) = none
          · simp [h3, h4]
          · simp [h3, h4]

theorem envGet_processLine_of_some (env : Env) (l k v : String)
    (h : envGet env k = some v) : envGet (processLine env l) k = some v := by
  rw [processLine_eq]
  cases he : lineEntry l with
  | none => exact h
  | some kv =>
    simp only
    split
    · rename_i hnone
      apply Eq.trans (envGet_envSet_of_ne env k kv.1 kv.2 ?_) h
      intro hk
      rw [hk, h] at hnone
      exact Option.noConfusion hnone
    · exact h

theorem envGet_loadEnv_of_some (lines : List String) (env : Env) (k v : String)
    (h : envGet env k = some v) : envGet (loadEnv env lines) k = some v := by
  induction lines generalizing env with
  | nil => exact h
  | cons l ls ih => exact ih _ (envGet_processLine_of_some env l k v h)

theorem envGet_loadEnv_of_none (lines : List String) (env : Env) (k : String)
    (h : envGet env k = none) :
    envGet (loadEnv env lines) k = fileLookup k lines := by
  induction lines generalizing env with
  | nil => exact h
  | cons l ls ih =>
    show envGet (loadEnv (processLine env l) ls) k = _
    rw [processLine_eq]
    cases he : lineEntry l with
    | none => simp only [fileLookup, he]; exact ih env h
    | some kv =>
      simp only [fileLookup, he]
      by_cases hk : kv.1 = k
      · subst hk
        simp only [h, if_true, if_pos rfl]
        exact envGet_loadEnv_of_some ls _ _ _ (envGet_envSet_self env kv.1 kv.2 h)
      · simp only [if_neg hk]
        split
        · exact ih _ ((envGet_envSet_of_ne env k kv.1 kv.2 hk).trans h)
        · exact ih env h

/-- C2 counterexample: the claim, read literally, populates the key of a
line without `=` from its `str.partition`-style split (value `""`), but
`_load_env` skips such lines: with an empty environment and the one-line
file `FOO`, the claim predicts `FOO = ""` while the loader leaves `FOO`
unset. -/
theorem c2_counterexample :
    envGet [] "FOO" = none
    ∧ claimFileLookup "FOO" ["FOO"] = some ""
    ∧ envGet (loadEnv [] ["FOO"]) "FOO" = none
    ∧ envGet (loadEnv [] ["FOO"]) "FOO" ≠ claimFileLookup "FOO" ["FOO"] :=
  ⟨rfl, rfl, rfl, fun h => Option.noConfusion (h.symm.trans rfl)⟩

/-- C2 (amended): for every config-file content and initial environment,
`_load_env` never overwrites an environment key that is already set, and
every key absent from the environment ends up bound exactly as prescribed
by the first non-comment, non-blank line that contains `=` and whose
trimmed key equals it and is non-empty (unbound when no such line
exists). -/
theorem c2_env_loader (env : Env) (lines : List String) (k : String) :
    (∀ v, envGet env k = some v → envGet (loadEnv env lines) k = some v)
    ∧ (envGet env k = none → envGet (loadEnv env lines) k = fileLookup k lines) :=
  ⟨fun v h => envGet_loadEnv_of_some lines env k v h,
   fun h => envGet_loadEnv_of_none lines env k h⟩

/-- Witness for C2 at a two-line file over an environment already binding
`A`: `A` keeps its environment value, `B` gets its trimmed file value. -/
theorem c2_env_loader_witness :
    envGet (loadEnv [("A", "1")] ["A=2", " B = 3 "]) "A" = some "1"
    ∧ envGet (loadEnv [("A", "1")] ["A=2", " B = 3 "]) "B" = some "3" := by
  refine ⟨(c2_env_loader [("A", "1")] ["A=2", " B = 3 "] "A").1 "1" rfl, ?_⟩
  rw [(c2_env_loader [("A", "1")] ["A=2", " B = 3 "] "B").2 rfl]
  rfl

/-- C5 counterexample: the session-management module's grammar has no
`--session` option at all, so the claim's universal statement over every
command module fails at `session.py`. -/
theorem c5_counterexample :
    findOpt sessionModuleOpts "--session" = none
    ∧ ¬ ∃ o, o ∈ sessionModuleOpts ∧ o.long = "--session" := by
  refine ⟨rfl, ?_⟩
  rintro ⟨o, ho, _⟩
  simp [sessionModuleOpts] at ho

/-- C5 (amended): the groups, contacts, chat-listing, text-sending and
media-sending modules each accept a `-s`/`--session` option defaulting to
`"default"`; the session-management module accepts no `--session` option
(its session names are positional arguments). -/
theorem c5_session_option_amended :
    findOpt groupsModuleOpts "--session" = some ⟨some "-s", "--session", .str "default"⟩
    ∧ findOpt contactsModuleOpts "--session"
        = some ⟨some "-s", "--session", .str "default"⟩
    ∧ findOpt listChatsModuleOpts "--session"
        = some ⟨some "-s", "--session", .str "default"⟩
    ∧ findOpt sendMessageModuleOpts "--session"
        = some ⟨some "-s", "--session", .str "default"⟩
    ∧ findOpt sendMediaModuleOpts "--session"
        = some ⟨some "-s", "--session", .str "default"⟩
    ∧ findOpt sessionModuleOpts "--session" = none :=
  ⟨rfl, rfl, rfl, rfl, rfl, rfl⟩

/-- C7: on a dict response, `contacts check <phone>` prints the structured
dump and then the sentence `Number <phone> exists on WhatsApp` when
`numberExists` or `chatId` is truthy, and a `NOT found` sentence
otherwise. -/
theorem c7_contacts_check_sentence (phone : String) (fs : List (String × Json)) :
    contactsCheckOutput phone (.obj fs) =
      [ppStr (.obj fs),
       if truthy (pyOr (dGet fs "numberExists" .null) (dGet fs "chatId" .null))
       then "\n  Number " ++ phone ++ " exists on WhatsApp"
       else "\n  Number " ++ phone ++ " NOT found on WhatsApp"] := by
  have key : ∀ st : String,
      "\n  Number " ++ phone ++ " " ++ st ++ " on WhatsApp"
        = "\n  Number " ++ phone ++ (" " ++ (st ++ " on WhatsApp")) := fun st => by
    rw [String.append_assoc, String.append_assoc]
  by_cases h : truthy (pyOr (dGet fs "numberExists" Json.null) (dGet fs "chatId" Json.null)) = true
  · simp only [contactsCheckOutput, h, if_true, key]
    rfl
  · simp only [contactsCheckOutput, h, if_false, Bool.false_eq_true, key]
    rfl

/-- C8: `list_chats messages` prints the per-message blocks in exactly the
reverse order of the received list; in particular for a two-item
(descending-sorted) response the block of the second (older) item comes
first. -/
theorem c8_messages_reversed (ms : List Json) (a b : Json) :
    messagesOutput (.arr ms)
      = ((ms.map msgLines).reverse).flatten ++ [countPrint ms.length "messages"]
    ∧ messagesOutput (.arr [a, b])
      = msgLines b ++ (msgLines a ++ [countPrint 2 "messages"]) := by
  constructor
  · simp only [messagesOutput, List.flatMap_def, List.map_reverse]
  · simp [messagesOutput]

/-- C9: on a non-dict response (list, scalar, etc.), `contacts check`
prints only the generic structured dump and no existence sentence. -/
theorem c9_contacts_check_non_dict (phone : String) (j : Json)
    (h : Json.isObj j = false) :
    contactsCheckOutput phone j = [ppStr j] := by
  cases j <;> simp_all [contactsCheckOutput, Json.isObj]

/-- Witness for C9 at a list response. -/
theorem c9_contacts_check_non_dict_witness :
    contactsCheckOutput "628" (.arr []) = [ppStr (.arr [])] :=
  c9_contacts_check_non_dict "628" (.arr []) rfl

theorem length_flatMap_msgLines (ms : List Json) :
    (ms.flatMap msgLines).length = 2 * ms.length := by
  induction ms with
  | nil => rfl
  | cons m ms ih =>
    have h2 : (msgLines m).length = 2 := rfl
    simp only [List.flatMap_cons, List.length_append, ih, h2, List.length_cons]
    ring

theorem length_flatMap_overviewLines (cs : List Json) :
    cs.length ≤ (cs.flatMap overviewLines).length
      ∧ (cs.flatMap overviewLines).length ≤ 2 * cs.length := by
  induction cs with
  | nil => simp
  | cons c cs ih =>
    have h1 : 1 ≤ (overviewLines c).length ∧ (overviewLines c).length ≤ 2 := by
      simp only [overviewLines, List.length_cons]
      split <;> simp
    simp only [List.flatMap_cons, List.length_append, List.length_cons]
    omega

/-- C3 counterexample: `list_chats messages` emits two prints per message,
so on a one-message response there is no decomposition of its output into
exactly one per-item line followed by the trailing count print. -/
theorem c3_counterexample :
    ¬ ∃ itemPrints : List String, itemPrints.length = 1
        ∧ messagesOutput (.arr [.obj []]) = itemPrints ++ [countPrint 1 "messages"] := by
  rintro ⟨ls, hlen, heq⟩
  have h := congrArg List.length heq
  simp [messagesOutput, hlen] at h
  have h2 : (msgLines (Json.obj [])).length = 2 := rfl
  omega

/-- C3 (amended): on a decoded JSON array of N items, the single-line list
commands (groups list, groups participants, contacts list, sessions list,
chats list) emit exactly N one-line item prints followed by the trailing
count print `\n(N <noun>)`; `list_chats messages` emits exactly 2N item
lines (summary plus id line per message) and `list_chats overview` between
N and 2N (an extra preview line per chat with truthy truncated body), each
followed by the same trailing count print. -/
theorem c3_list_commands (gs ps cts ss cs ovs ms : List Json) :
    ((groupsListOutput (.arr gs)).length = gs.length + 1
      ∧ (groupsListOutput (.arr gs)).getLast? = some (countPrint gs.length "groups"))
    ∧ ((participantsOutput (.arr ps)).length = ps.length + 1
      ∧ (participantsOutput (.arr ps)).getLast?
          = some (countPrint ps.length "participants"))
    ∧ ((contactsListOutput (.arr cts)).length = cts.length + 1
      ∧ (contactsListOutput (.arr cts)).getLast?
          = some (countPrint cts.length "contacts"))
    ∧ ((sessionsListOutput (.arr ss)).length = ss.length + 1
      ∧ (sessionsListOutput (.arr ss)).getLast?
          = some (countPrint ss.length "sessions"))
    ∧ ((chatsOutput (.arr cs)).length = cs.length + 1
      ∧ (chatsOutput (.arr cs)).getLast? = some (countPrint cs.length "chats"))
    ∧ ((messagesOutput (.arr ms)).length = 2 * ms.length + 1
      ∧ (messagesOutput (.arr ms)).getLast?
          = some (countPrint ms.length "messages"))
    ∧ (ovs.length + 1 ≤ (overviewOutput (.arr ovs)).length
      ∧ (overviewOutput (.arr ovs)).length ≤ 2 * ovs.length + 1
      ∧ (overviewOutput (.arr ovs)).getLast?
          = some (countPrint ovs.length "chats")) := by
  refine ⟨⟨?_, ?_⟩, ⟨?_, ?_⟩, ⟨?_, ?_⟩, ⟨?_, ?_⟩, ⟨?_, ?_⟩, ⟨?_, ?_⟩, ⟨?_, ?_, ?_⟩⟩
  · simp [groupsListOutput]
  · simp [groupsListOutput, List.getLast?_append]
  · simp [participantsOutput]
  · simp [participantsOutput, List.getLast?_append]
  · simp [contactsListOutput]
  · simp [contactsListOutput, List.getLast?_append]
  · simp [sessionsListOutput]
  · simp [sessionsListOutput, List.getLast?_append]
  · simp [chatsOutput]
  · simp [chatsOutput, List.getLast?_append]
  · have h := length_flatMap_msgLines ms.reverse
    simp only [messagesOutput, List.length_append, List.length_cons,
      List.length_nil, h, List.length_reverse]
  · simp [messagesOutput, List.getLast?_append]
  · have h := (length_flatMap_overviewLines ovs).1
    simp only [overviewOutput, List.length_append, List.length_cons, List.length_nil]
    omega
  · have h := (length_flatMap_overviewLines ovs).2
    simp only [overviewOutput, List.length_append, List.length_cons, List.length_nil]
    omega
  · simp [overviewOutput, List.getLast?_append]

/-- C10: supplying an optional string argument as the empty string leaves
the outgoing payload identical to not supplying it at all, both for
`send_message.py` (`--reply-to`) and for `send_media.py` (`--caption`,
`--reply-to`, `--filename`, `--mimetype`), because inclusion is decided by
truthiness. -/
theorem c10_empty_string_options_omitted (cid txt sess url mt : String) :
    sendTextPayload cid txt sess (some "") = sendTextPayload cid txt sess none
    ∧ sendMediaPayload mt cid url sess (some "") (some "") (some "") (some "")
        = sendMediaPayload mt cid url sess none none none none := by
  constructor <;>
    simp [sendTextPayload, sendMediaPayload, sendMediaFileObj, optEntry]

end Waha
